import Mathlib

/-!
# Verification of the Metricool MCP server (mcp-metricool)

Shallow embedding of the repository's two deployment variants:

* `src/metricool-cloudflare-server/src/server.ts` — the class-based MCP
  server (`MetricoolClient`, `MetricoolMCPServer`), served via the MCP SDK.
* `src/metricool-cloudflare-server/src/index.ts` — the Cloudflare Worker
  entry point with direct tool handlers (`metricoolApiCall`,
  `handleListBrands`, `handleTimeline`, ..., and the inline `tools/list`
  catalog).
* `src/unnamed/part_002` — the express variant of the class-based server
  (it differs from `server.ts` in `handlePostRequest`'s fallthrough branch).

JavaScript values that flow through tool arguments are modelled by `JSValue`
with JavaScript truthiness and `String(...)` coercion.  Machine-level details
that no claim touches (JSON.stringify rendering of successful tool results,
the SDK transport internals) are abstracted: handlers return typed shaped
outputs, and transports are counted rather than constructed.
-/

namespace Metricool

/-- A JSON/JavaScript value as delivered in parsed tool arguments or
upstream response bodies.  Numbers are modelled as integers (every value a
claim exercises is integral); `NaN` shows up as `none` in coercions. -/
inductive JSValue where
  | vNull : JSValue
  | vBool : Bool → JSValue
  | vNum : Int → JSValue
  | vStr : String → JSValue
  | vArr : List JSValue → JSValue
  | vObj : List (String × JSValue) → JSValue

namespace JSValue

/-- JavaScript truthiness of a value: `null`, `false`, `0` and `""` are
falsy; arrays and objects are always truthy. -/
def truthy : JSValue → Bool
  | vNull => false
  | vBool b => b
  | vNum n => n != 0
  | vStr s => s != ""
  | vArr _ => true
  | vObj _ => true

mutual

/-- JavaScript `String(v)` coercion.  `String([]) = ""`, arrays join their
elements with commas, and objects render as "[object Object]". -/
def jsToString : JSValue → String
  | vNull => "null"
  | vBool true => "true"
  | vBool false => "false"
  | vNum n => toString n
  | vStr s => s
  | vArr xs => jsToStringJoin xs
  | vObj _ => "[object Object]"

/-- Model of `Array.prototype.join(",")` applied to the string coercions. -/
def jsToStringJoin : List JSValue → String
  | [] => ""
  | [x] => jsToString x
  | x :: xs => jsToString x ++ "," ++ jsToStringJoin xs

end

end JSValue

/-- Model of `String.prototype.trim()`. -/
def jsTrim (s : String) : String :=
  String.mk (((s.data.dropWhile Char.isWhitespace).reverse.dropWhile
    Char.isWhitespace).reverse)

def isDigitChar (c : Char) : Bool :=
  48 ≤ c.toNat && c.toNat ≤ 57

/-- Accumulates a decimal numeral; any non-digit yields `none`. -/
def digitsToNatAux (acc : Nat) : List Char → Option Nat
  | [] => some acc
  | c :: cs =>
      if isDigitChar c then digitsToNatAux (acc * 10 + (c.toNat - 48)) cs
      else none

/-- Integer parsing of a non-empty trimmed numeral, with optional sign. -/
def strToIntModel : List Char → Option Int
  | [] => none
  | c :: cs =>
      if c == Char.ofNat 45 then
        match cs with
        | [] => none
        | _ => (digitsToNatAux 0 cs).map (fun n => -(n : Int))
      else (digitsToNatAux 0 (c :: cs)).map (fun n => (n : Int))

/-- JavaScript's `Number(s)` on a string, restricted to the integral values
the code meets: the trimmed string parses as an integer, the empty string is
`0`, and anything else is `NaN` (modelled as `none`). -/
def jsNumberOfString (s : String) : Option Int :=
  let t := jsTrim s
  if t = "" then some 0 else strToIntModel t.data

/-- Model of `s.substring(0, n)`. -/
def jsSubstr (s : String) (n : Nat) : String :=
  String.mk (s.data.take n)

/-- JavaScript's `Number(v)` for the `string | number` entries of a raw
timeline point. -/
def jsNumber : JSValue → Option Int
  | .vNum n => some n
  | .vStr s => jsNumberOfString s
  | _ => none

/-- Tool arguments: the parsed JSON object of `request.params.arguments`. -/
def Args := List (String × JSValue)

/-- Model of `args.key` field access on the arguments object. -/
def Args.get (args : Args) (key : String) : Option JSValue :=
  (List.lookup key args)

/-- Model of `args.key || ""` followed by `String(...)`: the coercion the handlers
apply to a required argument before trimming. -/
def Args.requiredString (args : Args) (key : String) : String :=
  match args.get key with
  | some v => if v.truthy then v.jsToString else ""
  | none => ""

/-- Model of `args.key ? String(args.key) : undefined`: the coercion the handlers
apply to an optional argument. -/
def Args.optionalString (args : Args) (key : String) : Option String :=
  match args.get key with
  | some v => if v.truthy then some v.jsToString else none
  | none => none

/-! ## Substring and percent-encoding helpers -/

/-- Model of `JavaScript`'s prefix test on character lists. -/
def isPrefixChars : List Char → List Char → Bool
  | [], _ => true
  | _ :: _, [] => false
  | a :: as, b :: bs => a == b && isPrefixChars as bs

/-- Infix search on character lists. -/
def containsChars (pat : List Char) : List Char → Bool
  | [] => isPrefixChars pat []
  | c :: t => isPrefixChars pat (c :: t) || containsChars pat t

/-- Model of `String.prototype.includes(pat)`. -/
def strContains (s pat : String) : Bool :=
  containsChars pat.data s.data

/-- Hexadecimal digit (uppercase, as `encodeURIComponent` emits). -/
def hexDigit (n : Nat) : Char :=
  if n < 10 then Char.ofNat (48 + n) else Char.ofNat (55 + n)

/-- Characters `encodeURIComponent` leaves unescaped:
`A–Z a–z 0–9 - _ . ! ~ * ' ( )`. -/
def uriUnreserved (c : Char) : Bool :=
  (65 ≤ c.toNat && c.toNat ≤ 90) || (97 ≤ c.toNat && c.toNat ≤ 122) ||
  (48 ≤ c.toNat && c.toNat ≤ 57) ||
  c == Char.ofNat 45 || c == Char.ofNat 95 || c == Char.ofNat 46 ||
  c == Char.ofNat 33 || c == Char.ofNat 126 || c == Char.ofNat 42 ||
  c == Char.ofNat 39 || c == Char.ofNat 40 || c == Char.ofNat 41

/-- Percent-encodes one character as the `%HH` codes of its UTF-8 bytes. -/
def percentEncodeChar (c : Char) : String :=
  String.join (((String.singleton c).toUTF8.toList).map
    (fun b => "%" ++ String.singleton (hexDigit (b.toNat / 16)) ++
      String.singleton (hexDigit (b.toNat % 16))))

/-- JavaScript's `encodeURIComponent`. -/
def encodeURIComponent (s : String) : String :=
  String.join (s.data.map
    (fun c => if uriUnreserved c then String.singleton c else percentEncodeChar c))

/-! ## Configuration and the upstream client

`MetricoolConfig` mirrors the interface of the same name in `server.ts` and
`index.ts`.  `MetricoolClient`'s constructor check, `resolveBlogId` and the
query-parameter construction of `MetricoolClient.request` (`server.ts`
lines 66–89) are embedded one-for-one; `metricoolApiCall` in `index.ts`
builds its parameters with the identical statements (lines 49–67). -/

structure MetricoolConfig where
  userId : String
  userToken : String
  defaultBlogId : Option String := none

/-- Model of `buildConfig` from `index.ts`: missing environment values default to the
empty string, with no further validation. -/
structure EnvBindings where
  metricoolUserId : Option String := none
  metricoolUserToken : Option String := none
  metricoolBlogId : Option String := none

def buildConfig (env : EnvBindings) : MetricoolConfig :=
  { userId := (env.metricoolUserId.getD "")
    userToken := (env.metricoolUserToken.getD "")
    defaultBlogId := env.metricoolBlogId }

/-- The `MetricoolClient` constructor: it throws when `userId` or
`userToken` is falsy (the empty string), so a constructed client always
holds non-empty credentials. -/
def mkMetricoolClient (config : MetricoolConfig) : Except String MetricoolConfig :=
  if config.userId = "" then .error "METRICOOL_USER_ID is required"
  else if config.userToken = "" then .error "METRICOOL_USER_TOKEN is required"
  else .ok config

/-- JavaScript `a || b` on `string | undefined` operands. -/
def strOr (a b : Option String) : Option String :=
  match a with
  | some s => if s = "" then b else some s
  | none => b

/-- Model of `MetricoolClient.resolveBlogId`: `override || this.config.defaultBlogId`. -/
def resolveBlogId (config : MetricoolConfig) (override : Option String) : Option String :=
  strOr override config.defaultBlogId

/-- Truthiness of a `string | undefined`: present and non-empty. -/
def strTruthy : Option String → Bool
  | some s => s != ""
  | none => false

/-- A value of the `query` record: `string | number | boolean`; `none` at
the call sites models `undefined`/`null`. -/
inductive QueryVal where
  | qStr : String → QueryVal
  | qNum : Int → QueryVal
  | qBool : Bool → QueryVal

/-- Model of `String(value)` on a query value. -/
def QueryVal.str : QueryVal → String
  | qStr s => s
  | qNum n => toString n
  | qBool true => "true"
  | qBool false => "false"

/-- Model of `URLSearchParams.set`: replace the value of the first occurrence of the
key (dropping later duplicates) or append a fresh pair. -/
def setParam : List (String × String) → String → String → List (String × String)
  | [], k, v => [(k, v)]
  | p :: rest, k, v =>
      if p.1 = k then (k, v) :: rest.filter (fun q => q.1 ≠ k)
      else p :: setParam rest k v

/-- The query-string assembly shared verbatim by `MetricoolClient.request`
(`server.ts` lines 73–87) and `metricoolApiCall` (`index.ts` lines 51–65):
`userId` and `userToken` always, `blogId` when the resolved value is truthy,
then each query entry whose value is not `undefined`/`null`. -/
def buildParams (config : MetricoolConfig) (blogIdOverride : Option String)
    (query : List (String × Option QueryVal)) : List (String × String) :=
  let p0 := setParam [] "userId" config.userId
  let p1 := setParam p0 "userToken" config.userToken
  let effectiveBlogId := resolveBlogId config blogIdOverride
  let p2 :=
    if strTruthy effectiveBlogId then setParam p1 "blogId" (effectiveBlogId.getD "")
    else p1
  query.foldl
    (fun ps kv =>
      match kv.2 with
      | none => ps
      | some v => setParam ps kv.1 v.str)
    p2

/-- The outbound URL: fixed base host, path with embedded identifiers, and
the assembled search parameters. -/
structure UrlModel where
  base : String
  path : String
  params : List (String × String)

def METRICOOL_BASE_URL : String := "https://app.metricool.com/api"

def buildUrl (config : MetricoolConfig) (path : String) (blogIdOverride : Option String)
    (query : List (String × Option QueryVal)) : UrlModel :=
  { base := METRICOOL_BASE_URL
    path := path
    params := buildParams config blogIdOverride query }

/-! ## Upstream responses and the two response-handling policies -/

/-- An upstream HTTP response as the handlers observe it: status line,
content type, body text, and the outcome the runtime's JSON parser would
deliver for that body (`.error` carries the runtime parse-error message). -/
structure UpstreamResponse where
  status : Nat
  statusText : String := ""
  contentType : Option String := none
  body : String := ""
  json : Except String JSValue := .error "Unexpected end of JSON input"

/-- Model of `Response.ok`: status in the range 200–299. -/
def UpstreamResponse.isOk (r : UpstreamResponse) : Bool :=
  200 ≤ r.status && r.status ≤ 299

/-- Model of `MetricoolClient.request`'s response handling (`server.ts` lines
105–118): a non-ok status throws a message built from method, path, status
and body text; 204 yields `undefined` (modelled `none`); otherwise the
runtime JSON parse result is returned, its failure propagating as-is. -/
def clientHandleResponse (method path : String) (resp : UpstreamResponse) :
    Except String (Option JSValue) :=
  if !resp.isOk then
    .error ("Metricool API " ++ method ++ " " ++ path ++ " failed with " ++
      toString resp.status ++ ": " ++ resp.body)
  else if resp.status = 204 then .ok none
  else
    match resp.json with
    | .ok v => .ok (some v)
    | .error e => .error e

/-- One `MetricoolClient.request` invocation: the URL it builds and the
outcome of handling the given upstream response. -/
structure RequestTrace where
  url : UrlModel
  outcome : Except String (Option JSValue)

def clientRequest (config : MetricoolConfig) (method path : String)
    (blogIdOverride : Option String) (query : List (String × Option QueryVal))
    (resp : UpstreamResponse) : RequestTrace :=
  { url := buildUrl config path blogIdOverride query
    outcome := clientHandleResponse method path resp }

/-- Model of `errorBody.message || errorBody.error || errorDetails` from
`metricoolApiCall` (`index.ts` line 92): the first truthy of the two fields
(string-coerced by the template literal), else the basic details.  Property
access on a `null` body throws, which the surrounding `try` catches, also
leaving the basic details. -/
def jsonErrorDetails (v : JSValue) (base : String) : String :=
  match v with
  | .vObj fs =>
      match List.lookup "message" fs with
      | some m =>
          if m.truthy then m.jsToString
          else
            match List.lookup "error" fs with
            | some e => if e.truthy then e.jsToString else base
            | none => base
      | none =>
          match List.lookup "error" fs with
          | some e => if e.truthy then e.jsToString else base
          | none => base
  | _ => base

/-- The text-body rendering of error details shared by the HTML check
(`index.ts` lines 96–100). -/
def textErrorDetails (base body : String) : String :=
  if strContains body "<!DOCTYPE" || strContains body "<html" then
    base ++ " (HTML error page returned)"
  else base ++ ": " ++ jsSubstr body 200

/-- Model of `metricoolApiCall`'s response handling (`index.ts` lines 85–126):
a non-ok status throws `Metricool API error: …` with best-effort details;
an ok status with a non-JSON content type or an unparsable body throws one
of three contract-violation messages; otherwise the parsed JSON is
returned. -/
def apiCallHandleResponse (resp : UpstreamResponse) : Except String JSValue :=
  if !resp.isOk then
    let base := toString resp.status ++ " " ++ resp.statusText
    let details :=
      match resp.contentType with
      | some ct =>
          if strContains ct "application/json" then
            match resp.json with
            | .ok v => jsonErrorDetails v base
            | .error _ => base
          else textErrorDetails base resp.body
      | none => textErrorDetails base resp.body
    .error ("Metricool API error: " ++ details)
  else
    let ctJson :=
      match resp.contentType with
      | some ct => strContains ct "application/json"
      | none => false
    if !ctJson then
      if strContains resp.body "<!DOCTYPE" || strContains resp.body "<html" then
        .error "Metricool API returned HTML instead of JSON. This usually indicates an API error or maintenance page."
      else
        .error ("Metricool API returned non-JSON response: " ++
          (match resp.contentType with | some ct => ct | none => "null") ++
          ". Body: " ++ jsSubstr resp.body 200)
    else
      match resp.json with
      | .ok v => .ok v
      | .error _ =>
          .error ("Failed to parse JSON response from Metricool API. Body: " ++
            jsSubstr resp.body 200)

/-- One `metricoolApiCall` invocation (`index.ts`): URL plus outcome. -/
structure ApiCallTrace where
  url : UrlModel
  outcome : Except String JSValue

def metricoolApiCall (config : MetricoolConfig) (path : String)
    (blogIdOverride : Option String) (query : List (String × Option QueryVal))
    (resp : UpstreamResponse) : ApiCallTrace :=
  { url := buildUrl config path blogIdOverride query
    outcome := apiCallHandleResponse resp }

/-! ## Upstream payloads and response shaping

The TypeScript handlers cast the parsed JSON to the interfaces
`PublicBlogSummary`, `[string, string | number][]`,
`ReportHistoryResponse`, `ReportStatusResponse` and `PublicPostSummary[]`;
these typed views are embedded as the structures below. -/

/-- Model of `PublicBlogSummary` (`server.ts` lines 121–126) with an `extra` bucket
for the upstream fields the interface does not name (TypeScript casts do
not strip them; the projection must). -/
structure BlogRecord where
  id : Option Int := none
  label : Option String := none
  title : Option String := none
  timezone : Option String := none
  extra : List (String × JSValue) := []

/-- The brand projection of `handleListBrands`: only the four public
fields survive, and `label` falls back to `title` via `||`. -/
structure ShapedBrand where
  id : Option Int
  label : Option String
  title : Option String
  timezone : Option String
  deriving DecidableEq

def shapeBrand (blog : BlogRecord) : ShapedBrand :=
  { id := blog.id
    label := strOr blog.label blog.title
    title := blog.title
    timezone := blog.timezone }

/-- One raw timeline entry: the `[string, string | number]` tuple. -/
inductive StrOrNum where
  | s : String → StrOrNum
  | n : Int → StrOrNum
  deriving DecidableEq

def StrOrNum.toNumber : StrOrNum → Option Int
  | s v => jsNumberOfString v
  | n v => some v

def RawPoint := String × StrOrNum

/-- Model of `TimelinePoint` (`server.ts` lines 128–131); `value` is the result of
`Number(entry[1])`, with `none` standing for `NaN`. -/
structure TimelinePoint where
  date : String
  value : Option Int
  deriving DecidableEq

/-- The timeline projection (`server.ts` lines 497–500, `index.ts` lines
173–176): `rawPoints.map(entry => ({ date: entry[0], value: Number(entry[1]) }))`. -/
def shapeTimeline (rawPoints : List RawPoint) : List TimelinePoint :=
  rawPoints.map (fun entry => { date := entry.1, value := entry.2.toNumber })

/-- Model of `ReportHistoryItem` (`server.ts` lines 133–140).  The TypeScript field
names `from`/`to` are Lean keywords, hence `fromDate`/`toDate`. -/
structure ReportItem where
  creationDate : Option String := none
  fromDate : Option String := none
  toDate : Option String := none
  status : Option String := none
  reportFile : Option String := none
  reportType : Option String := none

/-- The report projection of `handleReports` (`server.ts` lines 554–561). -/
structure ShapedReport where
  fromDate : Option String
  toDate : Option String
  createdAt : Option String
  reportType : Option String
  status : Option String
  downloadUrl : Option String

def shapeReport (item : ReportItem) : ShapedReport :=
  { fromDate := item.fromDate
    toDate := item.toDate
    createdAt := item.creationDate
    reportType := item.reportType
    status := item.status
    downloadUrl := item.reportFile }

/-- The `data` object of `ReportStatusResponse` (`server.ts` lines 146–151). -/
structure ReportStatusData where
  status : Option String := none
  reportPath : Option String := none

/-- Model of `PublicPostSummary` (`server.ts` lines 153–159). -/
structure PostRecord where
  postUrl : Option String := none
  title : Option String := none
  date : Option String := none
  totalShares : Option Int := none
  pageViews : Option Int := none

/-- The post projection of `handlePosts` (`server.ts` lines 617–623). -/
structure ShapedPost where
  title : Option String
  url : Option String
  publishedAt : Option String
  totalShares : Option Int
  pageViews : Option Int

def shapePost (post : PostRecord) : ShapedPost :=
  { title := post.title
    url := post.postUrl
    publishedAt := post.date
    totalShares := post.totalShares
    pageViews := post.pageViews }

/-! ## The class-based tool handlers (`server.ts`) -/

/-- The single outbound call a handler asks the client to perform. -/
structure RequestSpec where
  method : String := "GET"
  path : String
  blogId : Option String := none
  query : List (String × Option QueryVal) := []

/-- Model of `await response.json() as T` after the status checks of
`MetricoolClient.request`: a non-ok status throws the method/path/status/body
message, 204 short-circuits to `undefined as T`, and a runtime JSON parse
failure propagates its own error. -/
def clientGetTyped {α : Type} (method path : String) (resp : UpstreamResponse)
    (payload : α) : Except String α :=
  if !resp.isOk then
    .error ("Metricool API " ++ method ++ " " ++ path ++ " failed with " ++
      toString resp.status ++ ": " ++ resp.body)
  else if resp.status = 204 then .ok payload
  else
    match resp.json with
    | .ok _ => .ok payload
    | .error e => .error e

/-- Model of `??` on `string | undefined`. -/
def nullCoalesce (a b : Option String) : Option String :=
  match a with
  | some s => some s
  | none => b

/-- The validation and request construction of `handleTimeline`
(`server.ts` lines 476–495): required `metric` (coerced, trimmed), optional
`start`/`end`/`blogId`. -/
def timelineRequest (args : Args) : Except String RequestSpec :=
  let metric := jsTrim (args.requiredString "metric")
  if metric = "" then .error "metric is required"
  else
    .ok { path := "/stats/timeline/" ++ encodeURIComponent metric
          blogId := args.optionalString "blogId"
          query := [("start", (args.optionalString "start").map .qStr),
                    ("end", (args.optionalString "end").map .qStr)] }

/-- The validation and request construction of `handleValues`
(`server.ts` lines 512–527). -/
def valuesRequest (args : Args) : Except String RequestSpec :=
  let category := jsTrim (args.requiredString "category")
  if category = "" then .error "category is required"
  else
    .ok { path := "/stats/values/" ++ encodeURIComponent category
          blogId := args.optionalString "blogId"
          query := [("date", (args.optionalString "date").map .qStr)] }

/-- The validation and request construction of `handleReports`
(`server.ts` lines 539–552): the per-call `blogId` else the configured
default must resolve to a truthy value before the call is built. -/
def reportsRequest (config : MetricoolConfig) (args : Args) : Except String RequestSpec :=
  let blogId := args.optionalString "blogId"
  let resolvedBlogId := nullCoalesce blogId config.defaultBlogId
  if !(strTruthy resolvedBlogId) then
    .error "blogId is required for reports. Set METRICOOL_BLOG_ID or pass blogId."
  else
    let r := resolvedBlogId.getD ""
    .ok { path := "/v2/brands/" ++ encodeURIComponent r ++ "/reports"
          blogId := some r }

/-- The validation and request construction of `handleReportStatus`
(`server.ts` lines 573–593). -/
def reportStatusRequest (config : MetricoolConfig) (args : Args) : Except String RequestSpec :=
  let jobId := jsTrim (args.requiredString "jobId")
  if jobId = "" then .error "jobId is required"
  else
    let blogId := args.optionalString "blogId"
    let resolvedBlogId := nullCoalesce blogId config.defaultBlogId
    if !(strTruthy resolvedBlogId) then
      .error "blogId is required for report status. Set METRICOOL_BLOG_ID or pass blogId."
    else
      let r := resolvedBlogId.getD ""
      .ok { path := "/v2/brands/" ++ encodeURIComponent r ++ "/reports/" ++
              encodeURIComponent jobId
            blogId := some r }

/-- The request construction of `handlePosts` (`server.ts` lines 607–615);
no required argument. -/
def postsRequest (args : Args) : RequestSpec :=
  { path := "/stats/posts"
    blogId := args.optionalString "blogId"
    query := [("start", (args.optionalString "start").map .qStr),
              ("end", (args.optionalString "end").map .qStr)] }

/-- The typed upstream views each handler's cast would produce for the one
response `resp` the upstream delivers to its single outbound call. -/
structure UpstreamWorld where
  resp : UpstreamResponse
  brands : List BlogRecord := []
  rawPoints : List RawPoint := []
  valuesJson : JSValue := .vNull
  reportHistory : Option (List ReportItem) := none
  reportStatusData : Option ReportStatusData := none
  posts : List PostRecord := []

inductive ToolOutput where
  | brands : List ShapedBrand → ToolOutput
  | timeline : List TimelinePoint → ToolOutput
  | values : JSValue → ToolOutput
  | reports : List ShapedReport → ToolOutput
  | reportStatus : ReportStatusData → ToolOutput
  | posts : List ShapedPost → ToolOutput

/-- Model of `handleListBrands` (`server.ts` lines 454–474). -/
def handleListBrands (w : UpstreamWorld) : Except String ToolOutput :=
  match clientGetTyped "GET" "/admin/simpleProfiles" w.resp w.brands with
  | .error e => .error e
  | .ok blogs => .ok (.brands (blogs.map shapeBrand))

/-- Model of `handleTimeline` (`server.ts` lines 476–509). -/
def handleTimeline (args : Args) (w : UpstreamWorld) : Except String ToolOutput :=
  match timelineRequest args with
  | .error e => .error e
  | .ok req =>
      match clientGetTyped "GET" req.path w.resp w.rawPoints with
      | .error e => .error e
      | .ok rawPoints => .ok (.timeline (shapeTimeline rawPoints))

/-- Model of `handleValues` (`server.ts` lines 512–537). -/
def handleValues (args : Args) (w : UpstreamWorld) : Except String ToolOutput :=
  match valuesRequest args with
  | .error e => .error e
  | .ok req =>
      match clientGetTyped "GET" req.path w.resp w.valuesJson with
      | .error e => .error e
      | .ok values => .ok (.values values)

/-- Model of `handleReports` (`server.ts` lines 539–571). -/
def handleReports (config : MetricoolConfig) (args : Args) (w : UpstreamWorld) :
    Except String ToolOutput :=
  match reportsRequest config args with
  | .error e => .error e
  | .ok req =>
      match clientGetTyped "GET" req.path w.resp w.reportHistory with
      | .error e => .error e
      | .ok response => .ok (.reports ((response.getD []).map shapeReport))

/-- Model of `handleReportStatus` (`server.ts` lines 573–605). -/
def handleReportStatus (config : MetricoolConfig) (args : Args) (w : UpstreamWorld) :
    Except String ToolOutput :=
  match reportStatusRequest config args with
  | .error e => .error e
  | .ok req =>
      match clientGetTyped "GET" req.path w.resp w.reportStatusData with
      | .error e => .error e
      | .ok statusResponse => .ok (.reportStatus (statusResponse.getD {}))

/-- Model of `handlePosts` (`server.ts` lines 607–633). -/
def handlePosts (args : Args) (w : UpstreamWorld) : Except String ToolOutput :=
  match clientGetTyped "GET" (postsRequest args).path w.resp w.posts with
  | .error e => .error e
  | .ok posts => .ok (.posts (posts.map shapePost))

/-! ## The CallTool dispatcher (`server.ts` lines 404–447) -/

def listBrandsTool : String := "metricool-list-brands"
def timelineTool : String := "metricool-get-timeline"
def valuesTool : String := "metricool-get-values"
def reportsTool : String := "metricool-list-reports"
def reportStatusTool : String := "metricool-report-status"
def postsTool : String := "metricool-get-posts"

/-- The `switch` of the CallTool handler, including the `Unknown tool`
default. -/
def dispatchTool (config : MetricoolConfig) (name : String) (args : Args)
    (w : UpstreamWorld) : Except String ToolOutput :=
  if name = listBrandsTool then handleListBrands w
  else if name = timelineTool then handleTimeline args w
  else if name = valuesTool then handleValues args w
  else if name = reportsTool then handleReports config args w
  else if name = reportStatusTool then handleReportStatus config args w
  else if name = postsTool then handlePosts args w
  else .error ("Unknown tool: " ++ name)

/-- What the CallTool request handler returns: a successful tool output, an
`isError` content block (`Metricool API call failed: …`), or — only for the
missing-tool-name guard that sits outside the `try` — a thrown exception. -/
inductive ToolResult where
  | success : ToolOutput → ToolResult
  | errorBlock : String → ToolResult
  | thrown : String → ToolResult

def callTool (config : MetricoolConfig) (name : String) (args : Args)
    (w : UpstreamWorld) : ToolResult :=
  if name = "" then .thrown "Tool name is required"
  else
    match dispatchTool config name args w with
    | .ok out => .success out
    | .error msg => .errorBlock ("Metricool API call failed: " ++ msg)

/-- The `metricool-list-reports` handler of the Worker entry point
(`index.ts` lines 317–335): it performs the upstream call with whatever
`blogId` the arguments carry — there is no missing-configuration check. -/
def workerHandleListReports (config : MetricoolConfig) (args : Args)
    (resp : UpstreamResponse) : ApiCallTrace :=
  metricoolApiCall config "/reports" (args.optionalString "blogId") [] resp

/-! ## Tool catalogs

Descriptor text is embedded verbatim from the source; schemas keep their
`type`, property names, `required` list and `additionalProperties` flag
(property-level descriptions, patterns and examples carry no behaviour). -/

structure InputSchema where
  type : String
  propertyNames : List String := []
  required : List String := []
  additionalProperties : Bool := false
  deriving DecidableEq

structure ToolDescriptor where
  name : String
  description : String
  inputSchema : InputSchema
  deriving DecidableEq

/-- The six-entry `tools` array of the `MetricoolMCPServer` constructor
(`server.ts` lines 181–308), served by the SDK's `tools/list` handler. -/
def serverTools : List ToolDescriptor :=
  [ { name := "metricool-list-brands"
      description := "List all brands (websites/blogs) available to the Metricool account. Use this first to discover available brand IDs for other operations. Returns brand details including names, domains, and IDs."
      inputSchema := { type := "object" } }
  , { name := "metricool-get-timeline"
      description := "Fetch historical data points for a specific metric over time. Useful for trend analysis, growth tracking, and performance monitoring. Returns time-series data with dates and values."
      inputSchema := { type := "object"
                       propertyNames := ["metric", "start", "end", "blogId"]
                       required := ["metric"] } }
  , { name := "metricool-get-values"
      description := "Get current aggregated metrics and KPIs for a specific category on a given day. Perfect for getting current status, daily snapshots, or comparing specific dates."
      inputSchema := { type := "object"
                       propertyNames := ["category", "date", "blogId"]
                       required := ["category"] } }
  , { name := "metricool-get-posts"
      description := "Retrieve website posts/articles published within a specific time period. Useful for content analysis, publication tracking, and performance monitoring."
      inputSchema := { type := "object"
                       propertyNames := ["start", "end", "blogId"] } }
  , { name := "metricool-list-reports"
      description := "List all generated analytics reports for a brand. Reports contain comprehensive data exports and analysis. Returns report metadata including IDs, names, creation dates, and status."
      inputSchema := { type := "object"
                       propertyNames := ["blogId"] } }
  , { name := "metricool-report-status"
      description := "Check the processing status and availability of a specific report job. Use this to monitor report generation progress and get download links when ready."
      inputSchema := { type := "object"
                       propertyNames := ["jobId", "blogId"]
                       required := ["jobId"] } }
  ]

/-- The nine-entry `tools` array of the Worker's inline `tools/list` branch
(`index.ts` lines 736–958). -/
def workerTools : List ToolDescriptor :=
  [ { name := "metricool-list-brands"
      description := "⭐ START HERE: List all brands (websites/blogs) available to the Metricool account. This should be your FIRST call to discover available brand IDs which are REQUIRED for reliable operation of other tools (especially post-related tools). Returns brand details including names, domains, and IDs that you\x27ll need for subsequent API calls."
      inputSchema := { type := "object" } }
  , { name := "metricool-get-timeline"
      description := "Fetch historical data points for a specific metric over time. Useful for trend analysis, growth tracking, and performance monitoring. Returns time-series data with dates and values."
      inputSchema := { type := "object"
                       propertyNames := ["metric", "start", "end", "blogId"]
                       required := ["metric"] } }
  , { name := "metricool-get-values"
      description := "Get current aggregated metrics and KPIs for a specific category on a given day. Perfect for getting current status, daily snapshots, or comparing specific dates."
      inputSchema := { type := "object"
                       propertyNames := ["category", "date", "blogId"]
                       required := ["category"] } }
  , { name := "metricool-get-website-posts"
      description := "Retrieve website posts published within a specific time period. Returns detailed post data for website/blog content including titles, URLs, publish dates, and performance metrics."
      inputSchema := { type := "object"
                       propertyNames := ["start", "end", "blogId"] } }
  , { name := "metricool-get-instagram-posts"
      description := "Retrieve Instagram posts published within a specific time period. Returns detailed Instagram post data including engagement metrics, reach, impressions, likes, comments, and media information for Instagram content. IMPORTANT: This tool requires a specific blogId and works best with explicit date ranges. If you get a 500 error, ensure you\x27re using a valid blogId from metricool-list-brands and try adding specific start/end dates."
      inputSchema := { type := "object"
                       propertyNames := ["start", "end", "blogId"] } }
  , { name := "metricool-get-facebook-posts"
      description := "Retrieve Facebook posts published within a specific time period. Returns detailed Facebook post data including reach, engagement, reactions, clicks, shares, comments, and performance metrics for Facebook page content. IMPORTANT: This tool requires a specific blogId and works best with explicit date ranges. If you get a 500 error, ensure you\x27re using a valid blogId from metricool-list-brands and try adding specific start/end dates."
      inputSchema := { type := "object"
                       propertyNames := ["start", "end", "blogId"] } }
  , { name := "metricool-get-twitter-posts"
      description := "Retrieve Twitter/X posts (tweets) published within a specific time period. Returns detailed tweet data including impressions, engagement, retweets, likes, replies, and performance metrics for Twitter content. IMPORTANT: This tool requires a specific blogId and works best with explicit date ranges. If you get a 500 error, ensure you\x27re using a valid blogId from metricool-list-brands and try adding specific start/end dates."
      inputSchema := { type := "object"
                       propertyNames := ["start", "end", "blogId"] } }
  , { name := "metricool-list-reports"
      description := "List all generated analytics reports for a brand. Reports contain comprehensive data exports and analysis. Returns report metadata including IDs, names, creation dates, and status."
      inputSchema := { type := "object"
                       propertyNames := ["blogId"] } }
  , { name := "metricool-report-status"
      description := "Check the processing status and availability of a specific report job. Use this to monitor report generation progress and get download links when ready."
      inputSchema := { type := "object"
                       propertyNames := ["jobId", "blogId"]
                       required := ["jobId"] } }
  ]

/-! ## Session registry and POST routing -/

/-- A POST request as `handlePostRequest` inspects it: the
`mcp-session-id` header and whether the body passes
`isInitializeRequest`. -/
structure PostReq where
  sessionId : Option String := none
  isInit : Bool := false

inductive PostResponse where
  | delegated : PostResponse
  | clientError : Nat → String → PostResponse
  deriving DecidableEq

/-- The observable effect of one POST: the response channel used, the
session registry afterwards, and how many `StreamableHTTPServerTransport`
objects were constructed while handling it. -/
structure PostOutcome where
  response : PostResponse
  registry : List String
  transportsConstructed : Nat
  deriving DecidableEq

/-- Model of `MetricoolMCPServer.handlePostRequest` of the Cloudflare variant
(`server.ts` lines 344–392).  `genId` is the session id the SDK transport
generates during `initialize` (`transport.sessionId`, possibly absent).
An unknown (or absent, non-initialize) session id falls into the final
`else`, which constructs a fresh transport, delegates to it, and registers
nothing. -/
def handlePostRequest (registry : List String) (req : PostReq)
    (genId : Option String) : PostOutcome :=
  let sid := req.sessionId.getD ""
  if strTruthy req.sessionId && registry.contains sid then
    { response := .delegated, registry := registry, transportsConstructed := 0 }
  else if !(strTruthy req.sessionId) && req.isInit then
    let registry' :=
      match genId with
      | some g => if g ≠ "" then registry ++ [g] else registry
      | none => registry
    { response := .delegated, registry := registry', transportsConstructed := 1 }
  else
    { response := .delegated, registry := registry, transportsConstructed := 1 }

/-- Model of `MetricoolMCPServer.handlePostRequest` of the express variant
(`src/unnamed/part_002` lines 197–232): identical first two branches, but
the fallthrough answers 400 `Bad Request: invalid session.` without
constructing a transport. -/
def handlePostRequestExpress (registry : List String) (req : PostReq)
    (genId : Option String) : PostOutcome :=
  let sid := req.sessionId.getD ""
  if strTruthy req.sessionId && registry.contains sid then
    { response := .delegated, registry := registry, transportsConstructed := 0 }
  else if !(strTruthy req.sessionId) && req.isInit then
    let registry' :=
      match genId with
      | some g => if g ≠ "" then registry ++ [g] else registry
      | none => registry
    { response := .delegated, registry := registry', transportsConstructed := 1 }
  else
    { response := .clientError 400 "Bad Request: invalid session."
      registry := registry
      transportsConstructed := 0 }

/-! ## General lemmas -/

/-- Two strings with distinct characters at a common index stay distinct
under arbitrary suffixes. -/
theorem append_ne_of_get (p q : String) (n : Nat) (c c' : Char)
    (hp : p.data[n]? = some c) (hq : q.data[n]? = some c') (hcc : c ≠ c')
    (hnp : n < p.data.length) (hnq : n < q.data.length) :
    ∀ a b : String, p ++ a ≠ q ++ b := by
  intro a b h
  apply hcc
  have h2 := congrArg (fun s : String => s.data[n]?) h
  simp only [String.data_append] at h2
  rw [List.getElem?_append_left hnp, List.getElem?_append_left hnq] at h2
  rw [hp, hq] at h2
  exact Option.some.inj h2

/-- A string with prefix `p` differing from the fixed string `m` at an
index inside `p` is distinct from `m`. -/
theorem append_ne_of_get_const (p m : String) (n : Nat) (c c' : Char)
    (hp : p.data[n]? = some c) (hm : m.data[n]? = some c') (hcc : c ≠ c')
    (hnp : n < p.data.length) :
    ∀ a : String, p ++ a ≠ m := by
  intro a h
  apply hcc
  have h2 := congrArg (fun s : String => s.data[n]?) h
  simp only [String.data_append] at h2
  rw [List.getElem?_append_left hnp] at h2
  rw [hp, hm] at h2
  exact Option.some.inj h2

/-- A required argument that is absent, or a string empty after trimming,
coerces and trims to the empty string. -/
theorem requiredString_trim_empty (args : Args) (key : String)
    (h : args.get key = none ∨
      ∃ s, args.get key = some (.vStr s) ∧ jsTrim s = "") :
    jsTrim (args.requiredString key) = "" := by
  rcases h with h | ⟨s, hs, ht⟩
  · simp only [Args.requiredString, h]
    decide
  · simp only [Args.requiredString, hs, JSValue.truthy]
    by_cases hse : s = ""
    · subst hse
      simp only [bne_self_eq_false, if_neg]
      decide
    · have : (s != "") = true := bne_iff_ne.mpr hse
      simp only [this, if_pos, JSValue.jsToString]
      exact ht

/-! ## Claim theorems -/

/-- C5: for every timeline response that is a list of `[date, value]`
pairs, the shaped result is the list of `{date, value}` records in the same
order with the value coerced to a number; in particular the body
`[["20240101","5"],["20240102","7"]]` shapes to
`[{date:"20240101",value:5},{date:"20240102",value:7}]`. -/
theorem c5_timeline_shaping :
    (∀ rawPoints : List RawPoint,
        (shapeTimeline rawPoints).length = rawPoints.length) ∧
    (∀ (rawPoints : List RawPoint) (i : Nat),
        (shapeTimeline rawPoints)[i]? =
          (rawPoints[i]?).map
            (fun entry => { date := entry.1, value := entry.2.toNumber })) ∧
    shapeTimeline [("20240101", .s "5"), ("20240102", .s "7")] =
      [{ date := "20240101", value := some 5 },
       { date := "20240102", value := some 7 }] := by
  refine ⟨?_, ?_, ?_⟩
  · intro rawPoints
    simp [shapeTimeline]
  · intro rawPoints i
    simp [shapeTimeline]
  · decide

/-- C10: in the list-brands projection, the shaped `label` equals the
upstream `label` when that is non-empty and otherwise the upstream `title`;
every upstream field other than id, label, title and timezone is dropped
(the projection ignores the `extra` bucket, and the shaped record has only
the four public fields). -/
theorem c10_brand_projection (blog : BlogRecord) :
    (∀ s : String, blog.label = some s → s ≠ "" → (shapeBrand blog).label = some s) ∧
    ((blog.label = none ∨ blog.label = some "") →
      (shapeBrand blog).label = blog.title) ∧
    shapeBrand blog = shapeBrand { blog with extra := [] } ∧
    (shapeBrand blog).id = blog.id ∧
    (shapeBrand blog).title = blog.title ∧
    (shapeBrand blog).timezone = blog.timezone := by
  refine ⟨?_, ?_, rfl, rfl, rfl, rfl⟩
  · intro s hs hne
    simp [shapeBrand, strOr, hs, hne]
  · rintro (h | h) <;> simp [shapeBrand, strOr, h]

/-- Witness for C10 at a concrete brand record carrying an upstream-only
field. -/
theorem c10_brand_projection_witness :
    (shapeBrand { id := some 7, label := some "L", title := some "T",
                  timezone := some "Z", extra := [("secret", .vNum 1)] }).label =
      some "L" := by
  exact (c10_brand_projection _).1 "L" rfl (by decide)

/-- C2 counterexample: the Worker's `tools/list` response carries nine tool
descriptors, not six. -/
theorem c2_worker_catalog_counterexample :
    workerTools.length = 9 ∧ ¬ (workerTools.length = 6) := by
  refine ⟨rfl, ?_⟩
  decide

/-- C2 amended: the class-based catalog holds exactly six descriptors and
the Worker's `tools/list` response exactly nine; in each, names are unique
and every descriptor has a non-empty description and an object schema. -/
theorem c2_catalogs :
    serverTools.length = 6 ∧ workerTools.length = 9 ∧
    serverTools.map ToolDescriptor.name =
      ["metricool-list-brands", "metricool-get-timeline", "metricool-get-values",
       "metricool-get-posts", "metricool-list-reports", "metricool-report-status"] ∧
    workerTools.map ToolDescriptor.name =
      ["metricool-list-brands", "metricool-get-timeline", "metricool-get-values",
       "metricool-get-website-posts", "metricool-get-instagram-posts",
       "metricool-get-facebook-posts", "metricool-get-twitter-posts",
       "metricool-list-reports", "metricool-report-status"] ∧
    (serverTools.map ToolDescriptor.name).Nodup ∧
    (workerTools.map ToolDescriptor.name).Nodup ∧
    (serverTools.all
      (fun t => !(t.description == "") && (t.inputSchema.type == "object"))) = true ∧
    (workerTools.all
      (fun t => !(t.description == "") && (t.inputSchema.type == "object"))) = true := by
  refine ⟨rfl, rfl, rfl, rfl, ?_, ?_, ?_, ?_⟩ <;> decide

/-- C1 counterexample: a POST with the unknown session id "unknown" against
registry `["a"]` is not answered with a client error — the Cloudflare
variant constructs a fresh transport (count 1) and delegates to it. -/
theorem c1_unknown_session_counterexample :
    handlePostRequest ["a"] { sessionId := some "unknown" } none =
      { response := .delegated, registry := ["a"], transportsConstructed := 1 } := by
  decide

/-- C1 amended: for a POST carrying an unknown (non-empty) session id, no
new session entry is added to the registry in either variant; the express
variant answers 400 `Bad Request: invalid session.` constructing no
transport, while the Cloudflare variant constructs one fresh unregistered
transport and delegates instead of erroring. -/
theorem c1_unknown_session (registry : List String) (req : PostReq)
    (genId : Option String) (sid : String)
    (hsid : req.sessionId = some sid) (hne : sid ≠ "")
    (hmem : registry.contains sid = false) :
    handlePostRequestExpress registry req genId =
      { response := .clientError 400 "Bad Request: invalid session."
        registry := registry, transportsConstructed := 0 } ∧
    (handlePostRequest registry req genId).registry = registry ∧
    (handlePostRequest registry req genId).transportsConstructed = 1 ∧
    (handlePostRequest registry req genId).response = .delegated := by
  have htruthy : strTruthy req.sessionId = true := by
    rw [hsid]
    simpa [strTruthy] using bne_iff_ne.mpr hne
  have hgetD : req.sessionId.getD "" = sid := by rw [hsid]; rfl
  have hnotmem : sid ∉ registry := by simpa using hmem
  refine ⟨?_, ?_, ?_, ?_⟩ <;>
    simp [handlePostRequest, handlePostRequestExpress, htruthy, hgetD, hmem, hnotmem]

/-- Witness for C1's amended theorem at a concrete unknown session id. -/
theorem c1_unknown_session_witness :
    handlePostRequestExpress ["a"] { sessionId := some "zzz" } none =
      { response := .clientError 400 "Bad Request: invalid session."
        registry := ["a"], transportsConstructed := 0 } ∧
    (handlePostRequest ["a"] ({ sessionId := some "zzz" } : PostReq) none).registry = ["a"] ∧
    (handlePostRequest ["a"] ({ sessionId := some "zzz" } : PostReq) none).transportsConstructed = 1 ∧
    (handlePostRequest ["a"] ({ sessionId := some "zzz" } : PostReq) none).response = .delegated := by
  exact c1_unknown_session ["a"] { sessionId := some "zzz" } none "zzz" rfl
    (by decide) (by decide)

/-- C4: a tool invocation whose required argument (metric, category, jobId)
is absent or a string empty after trimming fails with the handler's client
error; the outcome is independent of the upstream world, so no outbound
call is observed.  The coercion `String(arg || "")` and the trim happen
before the check, per the definitions of `timelineRequest`, `valuesRequest`
and `reportStatusRequest`. -/
theorem c4_required_args (config : MetricoolConfig) (args : Args)
    (w w' : UpstreamWorld) :
    ((args.get "metric" = none ∨
        ∃ s, args.get "metric" = some (.vStr s) ∧ jsTrim s = "") →
      handleTimeline args w = .error "metric is required" ∧
      handleTimeline args w = handleTimeline args w') ∧
    ((args.get "category" = none ∨
        ∃ s, args.get "category" = some (.vStr s) ∧ jsTrim s = "") →
      handleValues args w = .error "category is required" ∧
      handleValues args w = handleValues args w') ∧
    ((args.get "jobId" = none ∨
        ∃ s, args.get "jobId" = some (.vStr s) ∧ jsTrim s = "") →
      handleReportStatus config args w = .error "jobId is required" ∧
      handleReportStatus config args w = handleReportStatus config args w') := by
  refine ⟨?_, ?_, ?_⟩ <;> intro h
  · have he := requiredString_trim_empty args "metric" h
    constructor <;> simp [handleTimeline, timelineRequest, he]
  · have he := requiredString_trim_empty args "category" h
    constructor <;> simp [handleValues, valuesRequest, he]
  · have he := requiredString_trim_empty args "jobId" h
    constructor <;> simp [handleReportStatus, reportStatusRequest, he]

/-- Witness for C4: empty argument objects (and a whitespace-only metric)
at a concrete configuration and upstream world. -/
theorem c4_required_args_witness :
    handleTimeline [("metric", .vStr "   ")] { resp := { status := 200 } } =
      .error "metric is required" ∧
    handleValues [] { resp := { status := 200 } } =
      .error "category is required" ∧
    handleReportStatus { userId := "u", userToken := "t" } []
        { resp := { status := 200 } } =
      .error "jobId is required" := by
  have h1 := c4_required_args { userId := "u", userToken := "t" }
    [("metric", .vStr "   ")] { resp := { status := 200 } } { resp := { status := 200 } }
  have h2 := c4_required_args { userId := "u", userToken := "t" } []
    { resp := { status := 200 } } { resp := { status := 200 } }
  exact ⟨(h1.1 (Or.inr ⟨"   ", rfl, by decide⟩)).1,
    (h2.2.1 (Or.inl rfl)).1, (h2.2.2 (Or.inl rfl)).1⟩

/-- C3 counterexample: the Worker's direct list-reports handler, given no
blogId argument and no configured default, does not fail — it performs the
outbound call (here answered 200 with an empty JSON array) and succeeds,
with only the credentials in the query string. -/
theorem c3_worker_reports_counterexample :
    (workerHandleListReports { userId := "u", userToken := "t" } []
        { status := 200, contentType := some "application/json",
          json := .ok (.vArr []) }).outcome = .ok (.vArr []) ∧
    (workerHandleListReports { userId := "u", userToken := "t" } []
        { status := 200, contentType := some "application/json",
          json := .ok (.vArr []) }).url.params =
      [("userId", "u"), ("userToken", "t")] := by
  exact ⟨rfl, rfl⟩

/-- C3 amended: the class-based list-reports handler fails with the client
error naming the missing configuration — independently of the upstream
world — when no blogId argument is given and no default is configured, and
a non-empty override takes precedence over the default; the Worker's
direct list-reports handler instead always builds the outbound request,
with whatever blogId the arguments resolve to. -/
theorem c3_reports_blog_resolution (config : MetricoolConfig) (args : Args)
    (w w' : UpstreamWorld) (resp : UpstreamResponse) :
    ((args.get "blogId" = none → config.defaultBlogId = none →
      handleReports config args w =
        .error "blogId is required for reports. Set METRICOOL_BLOG_ID or pass blogId." ∧
      handleReports config args w = handleReports config args w') ∧
    (∀ s, args.optionalString "blogId" = some s → s ≠ "" →
      reportsRequest config args =
        .ok { path := "/v2/brands/" ++ encodeURIComponent s ++ "/reports"
              blogId := some s }) ∧
    (∀ s, s ≠ "" → resolveBlogId config (some s) = some s) ∧
    (workerHandleListReports config args resp).url =
      buildUrl config "/reports" (args.optionalString "blogId") [] ∧
    (workerHandleListReports config args resp).outcome = apiCallHandleResponse resp) := by
  refine ⟨?_, ?_, ?_, rfl, rfl⟩
  · intro hb hd
    have ho : args.optionalString "blogId" = none := by
      simp [Args.optionalString, hb]
    constructor <;>
      simp [handleReports, reportsRequest, ho, hd, nullCoalesce, strTruthy]
  · intro s hs hne
    simp [reportsRequest, hs, nullCoalesce, strTruthy, bne_iff_ne.mpr hne]
  · intro s hne
    simp [resolveBlogId, strOr, hne]

/-- Witness for C3's amended theorem at a concrete configuration without a
default workspace and at a concrete non-empty override. -/
theorem c3_reports_blog_resolution_witness :
    handleReports { userId := "u", userToken := "t" } [] { resp := { status := 200 } } =
      .error "blogId is required for reports. Set METRICOOL_BLOG_ID or pass blogId." ∧
    reportsRequest { userId := "u", userToken := "t", defaultBlogId := some "D" }
        [("blogId", .vStr "B")] =
      .ok { path := "/v2/brands/" ++ encodeURIComponent "B" ++ "/reports"
            blogId := some "B" } := by
  have h1 := c3_reports_blog_resolution { userId := "u", userToken := "t" } []
    { resp := { status := 200 } } { resp := { status := 200 } } { status := 200 }
  have h2 := c3_reports_blog_resolution
    { userId := "u", userToken := "t", defaultBlogId := some "D" }
    [("blogId", .vStr "B")]
    { resp := { status := 200 } } { resp := { status := 200 } } { status := 200 }
  exact ⟨(h1.1 rfl rfl).1, h2.2.1 "B" (by decide) (by decide)⟩

/-- C9 counterexample: when the upstream response body echoes the
configured token, the failure text does contain the token — the message
embeds the body verbatim. -/
theorem c9_token_echo_counterexample :
    (clientRequest { userId := "u", userToken := "tok" } "GET" "/stats/posts"
        none [] { status := 401, body := "tok" }).outcome =
      .error "Metricool API GET /stats/posts failed with 401: tok" ∧
    strContains "Metricool API GET /stats/posts failed with 401: tok" "tok" = true := by
  exact ⟨rfl, by decide⟩

/-- C9 amended: the failure message is built only from the HTTP method,
path, status and response body, never from the credential values — the
outcome of both clients is invariant under changing the configuration (and
the blogId/query options), so it can contain the token only when the token
already occurs in those inputs. -/
theorem c9_error_noninterference (cfg cfg' : MetricoolConfig)
    (method path : String) (o o' : Option String)
    (q q' : List (String × Option QueryVal)) (resp : UpstreamResponse) :
    (clientRequest cfg method path o q resp).outcome =
      (clientRequest cfg' method path o' q' resp).outcome ∧
    (metricoolApiCall cfg path o q resp).outcome =
      (metricoolApiCall cfg' path o' q' resp).outcome :=
  ⟨rfl, rfl⟩

/-- Disjointness of the two failure kinds in the Worker's upstream client:
a non-2xx application-error message is never equal to a message produced on
a 2xx response by a non-JSON content type or malformed body. -/
theorem apiCall_failure_disjoint (r1 r2 : UpstreamResponse) (m1 m2 : String)
    (h1ok : r1.isOk = false) (h1 : apiCallHandleResponse r1 = .error m1)
    (h2ok : r2.isOk = true) (h2 : apiCallHandleResponse r2 = .error m2) :
    m1 ≠ m2 := by
  have e1 : ∃ d, m1 = "Metricool API error: " ++ d := by
    rw [apiCallHandleResponse, h1ok] at h1
    simp only [Bool.not_false, if_true, Except.error.injEq] at h1
    exact ⟨_, h1.symm⟩
  have e2 : m2 = "Metricool API returned HTML instead of JSON. This usually indicates an API error or maintenance page." ∨
      (∃ x, m2 = "Metricool API returned non-JSON response: " ++ x) ∨
      (∃ y, m2 = "Failed to parse JSON response from Metricool API. Body: " ++ y) := by
    rw [apiCallHandleResponse, h2ok] at h2
    simp only [Bool.not_true, if_false, Bool.false_eq_true] at h2
    split at h2
    · split at h2
      · exact Or.inl (Except.error.inj h2).symm
      · exact Or.inr (Or.inl ⟨_, (Except.error.inj h2).symm⟩)
    · split at h2
      · exact absurd h2 (by simp)
      · exact Or.inr (Or.inr ⟨_, (Except.error.inj h2).symm⟩)
  rcases e1 with ⟨d, rfl⟩
  rcases e2 with h | ⟨x, rfl⟩ | ⟨y, rfl⟩
  · rw [h]
    exact append_ne_of_get_const _ _ 14 'e' 'r' (by decide) (by decide)
      (by decide) (by decide) d
  · exact append_ne_of_get _ _ 14 'e' 'r' (by decide) (by decide) (by decide)
      (by decide) (by decide) d x
  · exact append_ne_of_get _ _ 0 'M' 'F' (by decide) (by decide) (by decide)
      (by decide) (by decide) d y

/-- C7 counterexample: in the class-based client, a 2xx response with a
non-JSON content type but a parseable JSON body produces no failure at all
(the content type is never inspected), and a malformed JSON body propagates
the runtime's raw parse message rather than a distinct branded failure
kind — so on `MetricoolClient.request` the claim fails. -/
theorem c7_server_contract_counterexample :
    clientHandleResponse "GET" "/stats/posts"
        { status := 200, contentType := some "text/html", body := "[1]",
          json := .ok (.vArr [.vNum 1]) } = .ok (some (.vArr [.vNum 1])) ∧
    clientHandleResponse "GET" "/stats/posts"
        { status := 200, contentType := some "application/json", body := "<html>",
          json := .error "Unexpected token < in JSON at position 0" } =
      .error "Unexpected token < in JSON at position 0" := by
  exact ⟨rfl, rfl⟩

/-- C7 amended: in the Worker's upstream client, a failure produced by a
non-2xx status (message `Metricool API error: …`) is always distinct from a
failure produced on a 2xx response by a non-JSON content type or malformed
body, so a caller can distinguish the two; the class-based client instead
performs no content-type check — its outcome is invariant under the
response's content type — and a malformed body on a 2xx non-204 response
propagates the runtime's raw parse error verbatim. -/
theorem c7_failure_kinds_amended :
    (∀ (r1 r2 : UpstreamResponse) (m1 m2 : String),
        r1.isOk = false → apiCallHandleResponse r1 = .error m1 →
        r2.isOk = true → apiCallHandleResponse r2 = .error m2 → m1 ≠ m2) ∧
    (∀ (method path : String) (status : Nat) (statusText : String)
        (ct ct' : Option String) (body : String) (j : Except String JSValue),
        clientHandleResponse method path
            { status := status, statusText := statusText, contentType := ct,
              body := body, json := j } =
          clientHandleResponse method path
            { status := status, statusText := statusText, contentType := ct',
              body := body, json := j }) ∧
    (∀ (method path : String) (r : UpstreamResponse) (e : String),
        r.isOk = true → r.status ≠ 204 → r.json = .error e →
        clientHandleResponse method path r = .error e) := by
  refine ⟨?_, ?_, ?_⟩
  · exact fun r1 r2 m1 m2 h1 h2 h3 h4 =>
      apiCall_failure_disjoint r1 r2 m1 m2 h1 h2 h3 h4
  · intro method path status statusText ct ct' body j
    rfl
  · intro method path r e hok h204 hj
    simp [clientHandleResponse, hok, h204, hj]

/-- Witness for C7's amended theorem: a 401 application error versus an
HTML error page on a 200 response in the Worker client, and a malformed
body propagating its raw runtime parse message in the class-based client. -/
theorem c7_failure_kinds_amended_witness :
    ("Metricool API error: 401 Unauthorized: " : String) ≠
      "Metricool API returned HTML instead of JSON. This usually indicates an API error or maintenance page." ∧
    clientHandleResponse "GET" "/stats/values/Audience"
        { status := 200, contentType := some "application/json", body := "<html>",
          json := .error "Unexpected end of JSON input" } =
      .error "Unexpected end of JSON input" := by
  refine ⟨?_, ?_⟩
  · exact c7_failure_kinds_amended.1
      { status := 401, statusText := "Unauthorized" }
      { status := 200, contentType := some "text/html", body := "<html>oops" }
      _ _ rfl rfl rfl rfl
  · exact c7_failure_kinds_amended.2.2 "GET" "/stats/values/Audience"
      { status := 200, contentType := some "application/json", body := "<html>",
        json := .error "Unexpected end of JSON input" }
      "Unexpected end of JSON input" rfl (by decide) rfl

/-- Whether an `Except` carries a value. -/
def exceptOk {ε α : Type} : Except ε α → Bool
  | .ok _ => true
  | .error _ => false

/-- The handler's own validation guard: whether the given invocation
reaches its upstream call (tools without required arguments always do). -/
def reachesUpstream (config : MetricoolConfig) (name : String) (args : Args) : Bool :=
  if name = timelineTool then exceptOk (timelineRequest args)
  else if name = valuesTool then exceptOk (valuesRequest args)
  else if name = reportsTool then exceptOk (reportsRequest config args)
  else if name = reportStatusTool then exceptOk (reportStatusRequest config args)
  else true

theorem exceptOk_iff {ε α : Type} (e : Except ε α) :
    exceptOk e = true ↔ ∃ a, e = .ok a := by
  cases e <;> simp [exceptOk]

/-- The error thrown by `MetricoolClient.request` for a non-ok response. -/
theorem clientGetTyped_error {α : Type} (method path : String)
    (resp : UpstreamResponse) (payload : α) (h : resp.isOk = false) :
    clientGetTyped method path resp payload =
      .error ("Metricool API " ++ method ++ " " ++ path ++ " failed with " ++
        toString resp.status ++ ": " ++ resp.body) := by
  simp [clientGetTyped, h]

/-- Splitting the dispatcher's error block text around the status code. -/
theorem apiFail_decomp (method path : String) (s : Nat) (b : String) :
    "Metricool API call failed: " ++ ("Metricool API " ++ method ++ " " ++ path ++
        " failed with " ++ toString s ++ ": " ++ b) =
      ("Metricool API call failed: " ++ ("Metricool API " ++ method ++ " " ++ path ++
        " failed with ")) ++ toString s ++ (": " ++ b) := by
  simp [String.append_assoc]

/-- C6: for every invocation of one of the six tools that reaches its
upstream call, a non-2xx upstream status makes the CallTool handler return
an `isError` content block whose text contains the upstream status code —
no exception escapes the dispatcher. -/
theorem c6_upstream_error_block (config : MetricoolConfig) (name : String)
    (args : Args) (w : UpstreamWorld)
    (hmem : name ∈ [listBrandsTool, timelineTool, valuesTool, reportsTool,
      reportStatusTool, postsTool])
    (hnok : w.resp.isOk = false)
    (hreach : reachesUpstream config name args = true) :
    ∃ text, callTool config name args w = .errorBlock text ∧
      ∃ pre post, text = pre ++ toString w.resp.status ++ post := by
  simp only [List.mem_cons, List.mem_singleton, List.not_mem_nil, or_false] at hmem
  rcases hmem with rfl | rfl | rfl | rfl | rfl | rfl
  · refine ⟨_, ?_, _, _, apiFail_decomp "GET" "/admin/simpleProfiles" w.resp.status w.resp.body⟩
    simp [callTool, dispatchTool, listBrandsTool, handleListBrands,
      clientGetTyped_error _ _ _ _ hnok]
  · obtain ⟨req, hreq⟩ := (exceptOk_iff _).mp (by
      simpa [reachesUpstream, timelineTool, listBrandsTool] using hreach)
    refine ⟨_, ?_, _, _, apiFail_decomp "GET" req.path w.resp.status w.resp.body⟩
    simp [callTool, dispatchTool, timelineTool, listBrandsTool, valuesTool,
      handleTimeline, hreq, clientGetTyped_error _ _ _ _ hnok]
  · obtain ⟨req, hreq⟩ := (exceptOk_iff _).mp (by
      simpa [reachesUpstream, valuesTool, timelineTool, listBrandsTool] using hreach)
    refine ⟨_, ?_, _, _, apiFail_decomp "GET" req.path w.resp.status w.resp.body⟩
    simp [callTool, dispatchTool, valuesTool, timelineTool, listBrandsTool,
      handleValues, hreq, clientGetTyped_error _ _ _ _ hnok]
  · obtain ⟨req, hreq⟩ := (exceptOk_iff _).mp (by
      simpa [reachesUpstream, reportsTool, valuesTool, timelineTool, listBrandsTool]
        using hreach)
    refine ⟨_, ?_, _, _, apiFail_decomp "GET" req.path w.resp.status w.resp.body⟩
    simp [callTool, dispatchTool, reportsTool, valuesTool, timelineTool,
      listBrandsTool, handleReports, hreq, clientGetTyped_error _ _ _ _ hnok]
  · obtain ⟨req, hreq⟩ := (exceptOk_iff _).mp (by
      simpa [reachesUpstream, reportStatusTool, reportsTool, valuesTool,
        timelineTool, listBrandsTool] using hreach)
    refine ⟨_, ?_, _, _, apiFail_decomp "GET" req.path w.resp.status w.resp.body⟩
    simp [callTool, dispatchTool, reportStatusTool, reportsTool, valuesTool,
      timelineTool, listBrandsTool, handleReportStatus, hreq,
      clientGetTyped_error _ _ _ _ hnok]
  · refine ⟨_, ?_, _, _, apiFail_decomp "GET" (postsRequest args).path
      w.resp.status w.resp.body⟩
    simp [callTool, dispatchTool, postsTool, reportStatusTool, reportsTool,
      valuesTool, timelineTool, listBrandsTool, handlePosts,
      clientGetTyped_error _ _ _ _ hnok]

/-- Witness for C6: a timeline call for `igFollowers` answered 401. -/
theorem c6_upstream_error_block_witness :
    ∃ text,
      callTool { userId := "u", userToken := "t" } timelineTool
          [("metric", .vStr "igFollowers")]
          { resp := { status := 401, body := "Unauthorized" } } =
        .errorBlock text ∧
      ∃ pre post, text = pre ++ toString (401 : Nat) ++ post := by
  exact c6_upstream_error_block { userId := "u", userToken := "t" } timelineTool
    [("metric", .vStr "igFollowers")]
    { resp := { status := 401, body := "Unauthorized" } }
    (by simp) rfl (by decide)

/-! ## Parameter-map lemmas for the amended C8 -/

theorem lookup_filter_ne (k k' : String) (h : k' ≠ k) :
    ∀ ps : List (String × String),
      List.lookup k' (ps.filter (fun q => q.1 ≠ k)) = List.lookup k' ps := by
  intro ps
  induction ps with
  | nil => rfl
  | cons p rest ih =>
      rcases p with ⟨p1, p2⟩
      by_cases hp : p1 = k
      · have hcmp : (k' == p1) = false := by
          rw [hp]; exact beq_eq_false_iff_ne.mpr h
        have hbk : (k' == k) = false := beq_eq_false_iff_ne.mpr h
        simp only [List.filter_cons, hp, ne_eq, not_true_eq_false, decide_False,
          Bool.false_eq_true, if_false, List.lookup, hcmp, hbk, ih]
      · by_cases hk : k' = p1
        · simp only [List.filter_cons, ne_eq, hp, not_false_eq_true, decide_True,
            if_true, List.lookup, hk, beq_self_eq_true]
        · simp only [List.filter_cons, ne_eq, hp, not_false_eq_true, decide_True,
            if_true, List.lookup, beq_eq_false_iff_ne.mpr hk, ih]

theorem setParam_lookup_self (k v : String) :
    ∀ ps : List (String × String), List.lookup k (setParam ps k v) = some v := by
  intro ps
  induction ps with
  | nil => simp [setParam, List.lookup]
  | cons p rest ih =>
      rcases p with ⟨p1, p2⟩
      by_cases hp : p1 = k
      · simp [setParam, hp, List.lookup]
      · simp only [setParam, hp, if_false, List.lookup,
          beq_eq_false_iff_ne.mpr (Ne.symm hp), ih]

theorem setParam_lookup_ne (k v k' : String) (h : k' ≠ k) :
    ∀ ps : List (String × String),
      List.lookup k' (setParam ps k v) = List.lookup k' ps := by
  intro ps
  induction ps with
  | nil => simp [setParam, List.lookup, beq_eq_false_iff_ne.mpr h]
  | cons p rest ih =>
      rcases p with ⟨p1, p2⟩
      by_cases hp : p1 = k
      · have hne : (k' == k) = false := beq_eq_false_iff_ne.mpr h
        have hne2 : (k' == p1) = false := by rw [hp]; exact hne
        simp only [setParam, hp, if_true, List.lookup, hne, hne2,
          lookup_filter_ne k k' h rest]
      · by_cases hk : k' = p1
        · simp [setParam, hp, List.lookup, hk]
        · simp only [setParam, hp, if_false, List.lookup,
            beq_eq_false_iff_ne.mpr hk, ih]

theorem setParam_mem (k v : String) (p : String × String) :
    ∀ ps : List (String × String), p ∈ setParam ps k v → p = (k, v) ∨ p ∈ ps := by
  intro ps
  induction ps with
  | nil => intro h; simp [setParam] at h; exact Or.inl h
  | cons q rest ih =>
      intro h
      by_cases hq : q.1 = k
      · simp [setParam, hq, List.mem_filter] at h
        rcases h with h | h
        · exact Or.inl h
        · exact Or.inr (List.mem_cons_of_mem q h.1)
      · simp only [setParam, hq, if_false, List.mem_cons] at h
        rcases h with h | h
        · exact Or.inr (by simp [h])
        · rcases ih h with h' | h'
          · exact Or.inl h'
          · exact Or.inr (List.mem_cons_of_mem q h')

/-- One step of the query fold in `buildParams`. -/
def queryStep (ps : List (String × String)) (kv : String × Option QueryVal) :
    List (String × String) :=
  match kv.2 with
  | none => ps
  | some v => setParam ps kv.1 v.str

theorem buildParams_eq_foldl (config : MetricoolConfig)
    (blogIdOverride : Option String) (query : List (String × Option QueryVal)) :
    buildParams config blogIdOverride query =
      query.foldl queryStep
        (if strTruthy (resolveBlogId config blogIdOverride) then
          [("userId", config.userId), ("userToken", config.userToken),
           ("blogId", (resolveBlogId config blogIdOverride).getD "")]
        else [("userId", config.userId), ("userToken", config.userToken)]) := by
  rw [buildParams]
  by_cases h : strTruthy (resolveBlogId config blogIdOverride) = true
  · simp only [h, if_true]
    rfl
  · simp only [Bool.not_eq_true] at h
    simp only [h, Bool.false_eq_true, if_false]
    rfl

theorem foldl_queryStep_lookup_preserved (k : String) :
    ∀ (query : List (String × Option QueryVal)) (acc : List (String × String)),
      (∀ kv ∈ query, kv.1 ≠ k) →
      List.lookup k (query.foldl queryStep acc) = List.lookup k acc := by
  intro query
  induction query with
  | nil => intro acc _; rfl
  | cons kv rest ih =>
      intro acc h
      have hk : kv.1 ≠ k := h kv (List.mem_cons_self kv rest)
      have hrest : ∀ q ∈ rest, q.1 ≠ k := fun q hq => h q (List.mem_cons_of_mem kv hq)
      rw [List.foldl_cons, ih _ hrest]
      cases hv : kv.2 with
      | none => simp [queryStep, hv]
      | some v => simp [queryStep, hv, setParam_lookup_ne kv.1 v.str k (Ne.symm hk)]

theorem foldl_queryStep_lookup_none (k : String) :
    ∀ (query : List (String × Option QueryVal)) (acc : List (String × String)),
      (∀ kv ∈ query, kv.1 = k → kv.2 = none) →
      List.lookup k acc = none →
      List.lookup k (query.foldl queryStep acc) = none := by
  intro query
  induction query with
  | nil => intro acc _ hacc; exact hacc
  | cons kv rest ih =>
      intro acc h hacc
      have hrest : ∀ q ∈ rest, q.1 = k → q.2 = none :=
        fun q hq => h q (List.mem_cons_of_mem kv hq)
      rw [List.foldl_cons]
      refine ih _ hrest ?_
      cases hv : kv.2 with
      | none => simpa [queryStep, hv] using hacc
      | some v =>
          have hk : kv.1 ≠ k := by
            intro hk
            have := h kv (List.mem_cons_self kv rest) hk
            rw [hv] at this
            exact Option.noConfusion this
          simpa [queryStep, hv, setParam_lookup_ne kv.1 v.str k (Ne.symm hk)]
            using hacc

theorem foldl_queryStep_values (query : List (String × Option QueryVal)) :
    ∀ (acc : List (String × String)),
      (∀ kv ∈ query, ∀ v, kv.2 = some v → QueryVal.str v ≠ "") →
      (∀ p ∈ acc, p.2 ≠ "") →
      ∀ p ∈ query.foldl queryStep acc, p.2 ≠ "" := by
  induction query with
  | nil => intro acc _ hacc; exact hacc
  | cons kv rest ih =>
      intro acc h hacc
      rw [List.foldl_cons]
      refine ih _ (fun q hq => h q (List.mem_cons_of_mem kv hq)) ?_
      intro p hp
      cases hv : kv.2 with
      | none => exact hacc p (by simpa [queryStep, hv] using hp)
      | some v =>
          rw [queryStep, hv] at hp
          rcases setParam_mem kv.1 v.str p acc hp with h' | h'
          · rw [h']
            exact h kv (List.mem_cons_self kv rest) v hv
          · exact hacc p h'

theorem strTruthy_getD (o : Option String) (h : strTruthy o = true) :
    o.getD "" ≠ "" := by
  cases o with
  | none => simp [strTruthy] at h
  | some s =>
      have : (s != "") = true := by simpa [strTruthy] using h
      simpa using bne_iff_ne.mp this

/-- C8 counterexample: the Worker's `buildConfig` defaults missing
credentials to the empty string and `metricoolApiCall` performs no
validation, so the outbound URL carries `userId` (and `userToken`) as
empty-string query parameters — a parameter is sent as an empty string. -/
theorem c8_empty_credential_counterexample :
    (metricoolApiCall (buildConfig {}) "/admin/simpleProfiles" none []
        { status := 200 }).url.params = [("userId", ""), ("userToken", "")] ∧
    ("userId", "") ∈ (metricoolApiCall (buildConfig {}) "/admin/simpleProfiles"
        none [] { status := 200 }).url.params := by
  exact ⟨rfl, by decide⟩

/-- C8 amended: every outbound URL contains the `userId` and `userToken`
parameters with the configured values, contains `blogId` exactly when a
truthy override or default resolves, and omits every query parameter whose
value is unset (`undefined`/`null`); no parameter is sent as an empty
string provided the credentials are non-empty (which the class-based
client's constructor enforces, but the Worker's `buildConfig` does not)
and no explicitly empty query value is supplied. -/
theorem c8_outbound_params (config : MetricoolConfig)
    (blogIdOverride : Option String) (query : List (String × Option QueryVal))
    (hq : ∀ kv ∈ query, kv.1 ≠ "userId" ∧ kv.1 ≠ "userToken" ∧ kv.1 ≠ "blogId") :
    (List.lookup "userId" (buildParams config blogIdOverride query) =
        some config.userId ∧
      List.lookup "userToken" (buildParams config blogIdOverride query) =
        some config.userToken) ∧
    (strTruthy (resolveBlogId config blogIdOverride) = true →
      List.lookup "blogId" (buildParams config blogIdOverride query) =
        some ((resolveBlogId config blogIdOverride).getD "")) ∧
    (strTruthy (resolveBlogId config blogIdOverride) = false →
      List.lookup "blogId" (buildParams config blogIdOverride query) = none) ∧
    (∀ k, k ≠ "userId" → k ≠ "userToken" → k ≠ "blogId" →
      (∀ kv ∈ query, kv.1 = k → kv.2 = none) →
      List.lookup k (buildParams config blogIdOverride query) = none) ∧
    (config.userId ≠ "" → config.userToken ≠ "" →
      (∀ kv ∈ query, ∀ v, kv.2 = some v → QueryVal.str v ≠ "") →
      ∀ p ∈ buildParams config blogIdOverride query, p.2 ≠ "") := by
  rw [buildParams_eq_foldl]
  by_cases hb : strTruthy (resolveBlogId config blogIdOverride) = true
  · simp only [hb, if_true]
    refine ⟨⟨?_, ?_⟩, ?_, ?_, ?_, ?_⟩
    · rw [foldl_queryStep_lookup_preserved _ _ _ (fun kv hk => (hq kv hk).1)]
      rfl
    · rw [foldl_queryStep_lookup_preserved _ _ _ (fun kv hk => (hq kv hk).2.1)]
      rfl
    · intro _
      rw [foldl_queryStep_lookup_preserved _ _ _ (fun kv hk => (hq kv hk).2.2)]
      rfl
    · intro hcontra
      exact absurd hcontra (by simp)
    · intro k h1 h2 h3 hnone
      refine foldl_queryStep_lookup_none _ _ _ hnone ?_
      simp [List.lookup, beq_eq_false_iff_ne.mpr h1, beq_eq_false_iff_ne.mpr h2,
        beq_eq_false_iff_ne.mpr h3]
    · intro hu ht hv
      refine foldl_queryStep_values _ _ hv ?_
      intro p hp
      simp only [List.mem_cons, List.not_mem_nil, or_false] at hp
      rcases hp with rfl | rfl | rfl
      · exact hu
      · exact ht
      · exact strTruthy_getD _ hb
  · simp only [hb, Bool.false_eq_true, if_false]
    refine ⟨⟨?_, ?_⟩, ?_, ?_, ?_, ?_⟩
    · rw [foldl_queryStep_lookup_preserved _ _ _ (fun kv hk => (hq kv hk).1)]
      rfl
    · rw [foldl_queryStep_lookup_preserved _ _ _ (fun kv hk => (hq kv hk).2.1)]
      rfl
    · intro hcontra
      exact hcontra.elim
    · intro _
      rw [foldl_queryStep_lookup_preserved _ _ _ (fun kv hk => (hq kv hk).2.2)]
      rfl
    · intro k h1 h2 h3 hnone
      refine foldl_queryStep_lookup_none _ _ _ hnone ?_
      simp [List.lookup, beq_eq_false_iff_ne.mpr h1, beq_eq_false_iff_ne.mpr h2]
    · intro hu ht hv
      refine foldl_queryStep_values _ _ hv ?_
      intro p hp
      simp only [List.mem_cons, List.not_mem_nil, or_false] at hp
      rcases hp with rfl | rfl
      · exact hu
      · exact ht

/-- Witness for C8's amended theorem: a timeline-style query with a set
`start` and an unset `end` under a configured default workspace. -/
theorem c8_outbound_params_witness :
    List.lookup "userId"
        (buildParams { userId := "u", userToken := "t", defaultBlogId := some "B" }
          none [("start", some (.qStr "20240101")), ("end", none)]) = some "u" ∧
    List.lookup "blogId"
        (buildParams { userId := "u", userToken := "t", defaultBlogId := some "B" }
          none [("start", some (.qStr "20240101")), ("end", none)]) = some "B" ∧
    List.lookup "end"
        (buildParams { userId := "u", userToken := "t", defaultBlogId := some "B" }
          none [("start", some (.qStr "20240101")), ("end", none)]) = none ∧
    ∀ p ∈ buildParams { userId := "u", userToken := "t", defaultBlogId := some "B" }
        none [("start", some (.qStr "20240101")), ("end", none)], p.2 ≠ "" := by
  have h := c8_outbound_params
    { userId := "u", userToken := "t", defaultBlogId := some "B" }
    none [("start", some (.qStr "20240101")), ("end", none)]
    (by
      intro kv hkv
      simp only [List.mem_cons, List.not_mem_nil, or_false] at hkv
      rcases hkv with rfl | rfl <;> exact ⟨by decide, by decide, by decide⟩)
  refine ⟨h.1.1, h.2.1 (by decide), ?_, ?_⟩
  · refine h.2.2.2.1 "end" (by decide) (by decide) (by decide) ?_
    intro kv hkv hk
    simp only [List.mem_cons, List.not_mem_nil, or_false] at hkv
    rcases hkv with rfl | rfl
    · exact absurd hk (by decide)
    · rfl
  · refine h.2.2.2.2 (by decide) (by decide) ?_
    intro kv hkv v hv
    simp only [List.mem_cons, List.not_mem_nil, or_false] at hkv
    rcases hkv with rfl | rfl
    · cases hv
      decide
    · cases hv

end Metricool
